import Mathlib

/-!
Verification of the FlashRead document-processing worker
(`worker/src`): quality oracle, block classifier, OCR normaliser,
OCR router, direct extractor and the store-gateway job protocol.

Modelling conventions:
  - Python `str` values that the code inspects character by character are
    modelled as `List Char`; identifier-like strings (statuses, engine
    names, methods) stay `String`.
  - Python `float` arithmetic (confidences, ratios, normalised positions)
    is modelled exactly over `ℚ`.
  - Wall-clock data (`created_at`, timestamps) is either omitted or passed
    in as an explicit parameter, since it does not affect the claims.
  - `re` patterns are compiled into executable character-list matchers;
    each matcher is deterministic and agrees with the (anchored) regex it
    embeds because the adjacent character classes are disjoint.
-/

namespace FlashRead

set_option maxRecDepth 200000

/-- ASCII whitespace characters recognised by Python's `\s` on the
character sets exercised by this code base. -/
def isPyWs (c : Char) : Bool :=
  c = ' ' || c = '\t' || c = '\n' || c = '\r' || c = '\x0b' || c = '\x0c'

/-- The four characters removed by the chained `.replace` calls in
`is_doc_ocr_sufficient` / `is_extraction_sufficient`. -/
def isReplacedWs (c : Char) : Bool :=
  c = ' ' || c = '\n' || c = '\t' || c = '\r'

/-- ASCII decimal digit (Python `\d` on ASCII input). -/
def isDigitChar (c : Char) : Bool :=
  '0' ≤ c && c ≤ '9'

/-- Python `str.strip()` restricted to the ASCII whitespace set. -/
def pyStrip (s : List Char) : List Char :=
  ((s.dropWhile isPyWs).reverse.dropWhile isPyWs).reverse

/-- `text.replace(' ','').replace('\n','').replace('\t','').replace('\r','')`
from `quality.py`. -/
def textWithoutWs (text : List Char) : List Char :=
  text.filter (fun c => !(isReplacedWs c))

/-- `worker/src/ocr/quality.py`, `is_doc_ocr_sufficient`: document-level
sufficiency of OCR text.  The source computes
`non_ws_ratio = len(text_without_ws) / len(text)` and returns
`non_ws_ratio > 0.5`; over exact arithmetic (and for the non-empty `text`
reaching this line) that comparison is equivalent to the cross-multiplied
integer comparison used here — `nonWsRatio_gt_half_iff` below proves the
equivalence against the rational ratio. -/
def is_doc_ocr_sufficient (text : List Char) (page_count : Nat) : Bool :=
  if text.isEmpty then false
  else
    let char_count := text.length
    let min_chars := max 500 (50 * page_count)
    if char_count < min_chars then false
    else
      let text_without_ws := textWithoutWs text
      if text.length = 0 then false
      else decide (text.length < 2 * text_without_ws.length)

/-- `worker/src/quality.py`, `is_extraction_sufficient`: document-level
sufficiency of directly extracted text (byte-for-byte the same body as
`is_doc_ocr_sufficient`; its ratio test is modelled the same way). -/
def is_extraction_sufficient (text : List Char) (page_count : Nat) : Bool :=
  if text.isEmpty then false
  else
    let char_count := text.length
    let min_chars := max 500 (50 * page_count)
    if char_count < min_chars then false
    else
      let text_without_ws := textWithoutWs text
      if text.length = 0 then false
      else decide (text.length < 2 * text_without_ws.length)

/-- The integer comparison in `is_doc_ocr_sufficient` is exactly the
source's `non_ws_ratio > 0.5` test: for non-empty text,
`len(nws)/len(text) > 1/2  ↔  len(text) < 2·len(nws)`. -/
theorem nonWsRatio_gt_half_iff (k L : Nat) (hL : 0 < L) :
    ((1 : ℚ) / 2 < (k : ℚ) / (L : ℚ)) ↔ L < 2 * k := by
  rw [div_lt_div_iff₀ (by norm_num) (by exact_mod_cast hL), one_mul, mul_comm (k : ℚ) 2]
  exact_mod_cast Iff.rfl

/-- A raw OCR engine block (`paddle_engine.OcrBlock`): text, optional
confidence in [0,1], optional bbox `[x, y, w, h]`. -/
structure OcrBlock where
  text : List Char
  confidence : Option ℚ
  bbox : Option (ℚ × ℚ × ℚ × ℚ)
deriving DecidableEq

/-- `worker/src/ocr/quality.py`, `is_page_quality_ok`: per-page OCR
quality predicate. -/
def is_page_quality_ok (blocks : List OcrBlock) (min_conf : ℚ) (min_chars : Nat) : Bool :=
  if blocks.isEmpty then false
  else
    let char_count := (blocks.map (fun b => b.text.length)).sum
    if char_count < min_chars then false
    else
      let confidences := blocks.filterMap (fun b => b.confidence)
      if confidences.isEmpty then true
      else
        let avg_conf := confidences.sum / (confidences.length : ℚ)
        if avg_conf < min_conf then false
        else true

/-- Characterisation of `is_doc_ocr_sufficient` used by several claims:
true exactly on non-empty text of length at least `max(500, 50·pages)`
whose non-whitespace ratio exceeds 1/2. -/
theorem is_doc_ocr_sufficient_iff (t : List Char) (n : Nat) :
    is_doc_ocr_sufficient t n = true ↔
      t ≠ [] ∧ max 500 (50 * n) ≤ t.length ∧
        (1 : ℚ) / 2 < ((textWithoutWs t).length : ℚ) / (t.length : ℚ) := by
  unfold is_doc_ocr_sufficient
  rcases eq_or_ne t [] with rfl | ht
  · simp
  · have hne : t.isEmpty = false := by simpa [List.isEmpty_iff] using ht
    have hL : 0 < t.length := List.length_pos.mpr ht
    by_cases h2 : t.length < max 500 (50 * n)
    · simp only [hne, Bool.false_eq_true, if_false, h2, if_true]
      constructor
      · intro h; exact absurd h (by simp)
      · intro h; omega
    · simp only [hne, Bool.false_eq_true, if_false, h2, if_true,
        nonWsRatio_gt_half_iff _ _ hL]
      simp [ht, hL.ne.symm, not_lt.mp h2]

/-- `config.py` default `OCR_MIN_CONFIDENCE` (env default "0.6"). -/
def OCR_MIN_CONFIDENCE : ℚ := 0.6

/-- `config.py` default `OCR_MIN_CHARS_PER_PAGE` (env default "50"). -/
def OCR_MIN_CHARS_PER_PAGE : Nat := 50

/-- `config.py` `PIPELINE_VERSION`. -/
def PIPELINE_VERSION : String := "1.0.0"

/-- Characterisation of `is_page_quality_ok`: true exactly on a non-empty
block list with enough characters whose non-null confidences (if any)
average at least `min_conf`. -/
theorem is_page_quality_ok_iff (blocks : List OcrBlock) (min_conf : ℚ) (min_chars : Nat) :
    is_page_quality_ok blocks min_conf min_chars = true ↔
      blocks ≠ [] ∧ min_chars ≤ (blocks.map (fun b => b.text.length)).sum ∧
        (blocks.filterMap (fun b => b.confidence) ≠ [] →
          min_conf ≤ (blocks.filterMap (fun b => b.confidence)).sum /
            ((blocks.filterMap (fun b => b.confidence)).length : ℚ)) := by
  unfold is_page_quality_ok
  rcases eq_or_ne blocks [] with rfl | hb
  · simp
  · have hne : ¬(blocks.isEmpty = true) := by simp [List.isEmpty_iff, hb]
    rw [if_neg hne]
    by_cases h2 : (blocks.map (fun b => b.text.length)).sum < min_chars
    · rw [if_pos h2]
      constructor
      · intro h; exact absurd h (by simp)
      · rintro ⟨-, h, -⟩; omega
    · rw [if_neg h2]
      by_cases h3 : (blocks.filterMap (fun b => b.confidence)).isEmpty = true
      · rw [if_pos h3]
        simp [List.isEmpty_iff.mp h3, hb, not_lt.mp h2]
      · rw [if_neg h3]
        by_cases h4 : (blocks.filterMap (fun b => b.confidence)).sum /
            ((blocks.filterMap (fun b => b.confidence)).length : ℚ) < min_conf
        · rw [if_pos h4]
          constructor
          · intro h; exact absurd h (by simp)
          · rintro ⟨-, -, h⟩
            exact absurd h4 (not_lt.mpr (h (by simpa [List.isEmpty_iff] using h3)))
        · rw [if_neg h4]
          simp [hb, not_lt.mp h2, not_lt.mp h4]

/-- C1: `is_doc_ocr_sufficient` (and, identically, `is_extraction_sufficient`)
returns true iff the text is non-empty, has length at least
`max(500, 50 · page_count)` and its non-whitespace ratio (characters left
after removing ASCII spaces, tabs, newlines and carriage returns, over the
total length) strictly exceeds 0.5; a one-page document with 500 characters
of pure non-whitespace text is sufficient and with 499 it is not. -/
theorem C1_doc_sufficiency :
    (∀ (t : List Char) (n : Nat),
        (is_doc_ocr_sufficient t n = true ↔
          t ≠ [] ∧ max 500 (50 * n) ≤ t.length ∧
            (1 : ℚ) / 2 < ((textWithoutWs t).length : ℚ) / (t.length : ℚ)) ∧
        is_extraction_sufficient t n = is_doc_ocr_sufficient t n) ∧
    is_doc_ocr_sufficient (List.replicate 500 'a') 1 = true ∧
    is_doc_ocr_sufficient (List.replicate 499 'a') 1 = false := by
  exact ⟨fun t n => ⟨is_doc_ocr_sufficient_iff t n, rfl⟩, by decide, by decide⟩

/-- C1 witness: the characterisation applied to the concrete 500-character
one-page boundary document. -/
theorem C1_doc_sufficiency_witness :
    (List.replicate 500 'a' : List Char) ≠ [] ∧
      max 500 (50 * 1) ≤ (List.replicate 500 'a' : List Char).length ∧
      (1 : ℚ) / 2 < ((textWithoutWs (List.replicate 500 'a')).length : ℚ) /
        ((List.replicate 500 'a' : List Char).length : ℚ) :=
  (C1_doc_sufficiency.1 (List.replicate 500 'a') 1).1.mp C1_doc_sufficiency.2.1

/-- C2: with the default bounds (min confidence 0.6, min chars 50),
`is_page_quality_ok` is true iff the block list is non-empty, the total
text length is at least 50, and — whenever some block carries a
confidence — the mean of the non-null confidences is at least 0.6; at the
boundary, 50 chars at confidence 0.6 is OK while 49 chars or confidence
0.59 is not. -/
theorem C2_page_quality_ok :
    (∀ blocks : List OcrBlock,
        is_page_quality_ok blocks OCR_MIN_CONFIDENCE OCR_MIN_CHARS_PER_PAGE = true ↔
          blocks ≠ [] ∧ 50 ≤ (blocks.map (fun b => b.text.length)).sum ∧
            (blocks.filterMap (fun b => b.confidence) ≠ [] →
              (0.6 : ℚ) ≤ (blocks.filterMap (fun b => b.confidence)).sum /
                ((blocks.filterMap (fun b => b.confidence)).length : ℚ))) ∧
    is_page_quality_ok [⟨List.replicate 50 'a', some 0.6, none⟩]
      OCR_MIN_CONFIDENCE OCR_MIN_CHARS_PER_PAGE = true ∧
    is_page_quality_ok [⟨List.replicate 49 'a', some 0.6, none⟩]
      OCR_MIN_CONFIDENCE OCR_MIN_CHARS_PER_PAGE = false ∧
    is_page_quality_ok [⟨List.replicate 50 'a', some 0.59, none⟩]
      OCR_MIN_CONFIDENCE OCR_MIN_CHARS_PER_PAGE = false := by
  refine ⟨fun blocks => ?_, ?_, ?_, ?_⟩
  · rw [is_page_quality_ok_iff]
    norm_num [OCR_MIN_CONFIDENCE, OCR_MIN_CHARS_PER_PAGE]
  · norm_num [is_page_quality_ok, OCR_MIN_CONFIDENCE, OCR_MIN_CHARS_PER_PAGE,
      List.filterMap_cons, List.sum_cons, List.sum_nil]
  · norm_num [is_page_quality_ok, OCR_MIN_CONFIDENCE, OCR_MIN_CHARS_PER_PAGE,
      List.filterMap_cons, List.sum_cons, List.sum_nil]
  · norm_num [is_page_quality_ok, OCR_MIN_CONFIDENCE, OCR_MIN_CHARS_PER_PAGE,
      List.filterMap_cons, List.sum_cons, List.sum_nil]

/-- C2 witness: the characterisation applied to one concrete
confidence-free page that passes the default bounds. -/
theorem C2_page_quality_ok_witness :
    ([⟨List.replicate 50 'a', none, none⟩] : List OcrBlock) ≠ [] ∧
      50 ≤ (([⟨List.replicate 50 'a', none, none⟩] : List OcrBlock).map
        (fun b => b.text.length)).sum ∧
      (([⟨List.replicate 50 'a', none, none⟩] : List OcrBlock).filterMap
          (fun b => b.confidence) ≠ [] →
        (0.6 : ℚ) ≤ (([⟨List.replicate 50 'a', none, none⟩] : List OcrBlock).filterMap
            (fun b => b.confidence)).sum /
          ((([⟨List.replicate 50 'a', none, none⟩] : List OcrBlock).filterMap
            (fun b => b.confidence)).length : ℚ)) :=
  (C2_page_quality_ok.1 [⟨List.replicate 50 'a', none, none⟩]).mp (by decide)

/-- C7 counterexample: the document predicate is not monotone under
appending text — a one-page text of 251 letters and 249 spaces is
sufficient, but appending four more spaces drops the non-whitespace ratio
to 251/504 and flips the predicate to false. -/
theorem C7_append_flips_sufficiency :
    is_doc_ocr_sufficient (List.replicate 251 'a' ++ List.replicate 249 ' ') 1 = true ∧
    is_doc_ocr_sufficient
      ((List.replicate 251 'a' ++ List.replicate 249 ' ') ++ List.replicate 4 ' ') 1 = false := by
  constructor
  · decide
  · decide

/-- C7 amended: appending text that contains none of the four removed
whitespace characters never flips the document predicate from true to
false (appending arbitrary — e.g. whitespace — text can, as the
counterexample shows, because it lowers the non-whitespace ratio). -/
theorem C7_append_nonws_monotone (t s : List Char) (n : Nat)
    (hs : ∀ c ∈ s, isReplacedWs c = false)
    (h : is_doc_ocr_sufficient t n = true) :
    is_doc_ocr_sufficient (t ++ s) n = true := by
  rw [is_doc_ocr_sufficient_iff] at h ⊢
  obtain ⟨ht, hlen, hratio⟩ := h
  have hL : 0 < t.length := List.length_pos.mpr ht
  rw [nonWsRatio_gt_half_iff _ _ hL] at hratio
  have hfs : s.filter (fun c => !(isReplacedWs c)) = s :=
    List.filter_eq_self.mpr (fun c hc => by simp [hs c hc])
  have hsplit : (textWithoutWs (t ++ s)).length = (textWithoutWs t).length + s.length := by
    simp [textWithoutWs, List.filter_append, hfs]
  refine ⟨by simp [ht], ?_, ?_⟩
  · simp only [List.length_append]
    omega
  · rw [nonWsRatio_gt_half_iff _ _ (by simp only [List.length_append]; omega), hsplit]
    simp only [List.length_append]
    omega

/-- C7 witness: the amended monotonicity applied to 500 letters with one
appended non-whitespace character. -/
theorem C7_append_nonws_monotone_witness :
    is_doc_ocr_sufficient (List.replicate 500 'a' ++ ['b']) 1 = true :=
  C7_append_nonws_monotone (List.replicate 500 'a') ['b'] 1 (by decide) (by decide)

/-- The closed set of semantic roles (`classifier.BlockType`). -/
inductive BlockType where
  | title
  | section_header
  | header
  | paragraph
  | equation
  | table
  | figure
  | caption
  | list
  | code
  | citation
  | footnote
  | page_number
  | other
  | unknown
deriving DecidableEq

/-- `classifier.PositionThresholds` (all fields at their source defaults
in `DEFAULT_THRESHOLDS`). -/
structure PositionThresholds where
  header_zone : ℚ
  footer_zone : ℚ
  footnote_zone : ℚ
  margin_left : ℚ
  margin_right : ℚ
  center_tolerance : ℚ

/-- `classifier.DEFAULT_THRESHOLDS`. -/
def DEFAULT_THRESHOLDS : PositionThresholds :=
  { header_zone := 0.08, footer_zone := 0.92, footnote_zone := 0.80,
    margin_left := 0.15, margin_right := 0.85, center_tolerance := 0.15 }

/-- Drop one optional leading occurrence of `c` (regex `c?` at the start;
deterministic here because in every use the following character class
cannot match `c`). -/
def dropOpt (c : Char) (cs : List Char) : List Char :=
  match cs with
  | c2 :: t => if c2 = c then t else cs
  | [] => []

/-- Case-insensitive literal prefix match, returning the rest of the
input (ASCII case folding, matching `re.I` on the patterns' ASCII
literals). -/
def stripPrefixCI (pre : List Char) (cs : List Char) : Option (List Char) :=
  match pre, cs with
  | [], rest => some rest
  | p :: pt, c :: ct => if c.toLower = p.toLower then stripPrefixCI pt ct else none
  | _ :: _, [] => none

/-- Regex `^-?\s*\d{1,4}\s*-?$` (first `PAGE_NUMBER_PATTERNS` entry). -/
def matchBarePageNum (cs : List Char) : Bool :=
  let cs := dropOpt '-' cs
  let cs := cs.dropWhile isPyWs
  let ds := cs.takeWhile isDigitChar
  let cs := cs.dropWhile isDigitChar
  if ds.length = 0 || 4 < ds.length then false
  else
    let cs := cs.dropWhile isPyWs
    cs = [] || cs = ['-']

/-- Regex `^Page\s+\d{1,4}$` with `re.I` (second `PAGE_NUMBER_PATTERNS`
entry). -/
def matchPageWordNum (cs : List Char) : Bool :=
  match stripPrefixCI ('P' :: 'a' :: 'g' :: 'e' :: []) cs with
  | none => false
  | some rest =>
    let ws := rest.takeWhile isPyWs
    let rest := rest.dropWhile isPyWs
    let ds := rest.takeWhile isDigitChar
    let rest := rest.dropWhile isDigitChar
    1 ≤ ws.length && 1 ≤ ds.length && ds.length ≤ 4 && rest = []

/-- Regexes `^\[\s*\d{1,4}\s*\]$` and `^\(\s*\d{1,4}\s*\)$`
(bracketed `PAGE_NUMBER_PATTERNS` entries). -/
def matchBracketedNum (openC closeC : Char) (cs : List Char) : Bool :=
  match cs with
  | [] => false
  | c :: rest =>
    if c = openC then
      let rest := rest.dropWhile isPyWs
      let ds := rest.takeWhile isDigitChar
      let rest := rest.dropWhile isDigitChar
      if ds.length = 0 || 4 < ds.length then false
      else
        let rest := rest.dropWhile isPyWs
        rest = [closeC]
    else false

/-- `classifier.is_page_number`. -/
def is_page_number (text : List Char) : Bool :=
  let trimmed := pyStrip text
  if 20 < trimmed.length then false
  else
    matchBarePageNum trimmed || matchPageWordNum trimmed ||
      matchBracketedNum '[' ']' trimmed || matchBracketedNum '(' ')' trimmed

/-- One `CAPTION_PATTERNS` regex `^<word>\s+\d+` (or `^<word>\s*\d+` for
the abbreviated `Fig.` / `Tbl.` forms, where `reqWs` is false), with
`re.I`; `re.match` only anchors the start, the rest of the text is
unconstrained. -/
def matchCaptionWord (w : List Char) (reqWs : Bool) (cs : List Char) : Bool :=
  match stripPrefixCI w cs with
  | none => false
  | some rest =>
    let ws := rest.takeWhile isPyWs
    let rest := rest.dropWhile isPyWs
    let ds := rest.takeWhile isDigitChar
    (!reqWs || 1 ≤ ws.length) && 1 ≤ ds.length

/-- `classifier.is_caption` over the nine `CAPTION_PATTERNS`. -/
def is_caption (text : List Char) : Bool :=
  let t := pyStrip text
  matchCaptionWord ('F' :: 'i' :: 'g' :: 'u' :: 'r' :: 'e' :: []) true t ||
  matchCaptionWord ('F' :: 'i' :: 'g' :: '.' :: []) false t ||
  matchCaptionWord ('T' :: 'a' :: 'b' :: 'l' :: 'e' :: []) true t ||
  matchCaptionWord ('T' :: 'b' :: 'l' :: '.' :: []) false t ||
  matchCaptionWord ('C' :: 'h' :: 'a' :: 'r' :: 't' :: []) true t ||
  matchCaptionWord ('G' :: 'r' :: 'a' :: 'p' :: 'h' :: []) true t ||
  matchCaptionWord ('E' :: 'x' :: 'h' :: 'i' :: 'b' :: 'i' :: 't' :: []) true t ||
  matchCaptionWord ('P' :: 'l' :: 'a' :: 't' :: 'e' :: []) true t ||
  matchCaptionWord ('D' :: 'i' :: 'a' :: 'g' :: 'r' :: 'a' :: 'm' :: []) true t

/-- The alternatives of the first `SECTION_HEADER_PATTERNS` regex
`^(Abstract|Introduction|Methods?|Methodology|Results?|Discussion|Conclusion|References|Bibliography|Acknowledgment)s?$`
(each optional `?` expanded), lower-cased. -/
def sectionWordAlternatives : List (List Char) :=
  [String.toList "abstract", String.toList "introduction",
   String.toList "method", String.toList "methods",
   String.toList "methodology", String.toList "result",
   String.toList "results", String.toList "discussion",
   String.toList "conclusion", String.toList "references",
   String.toList "bibliography", String.toList "acknowledgment"]

/-- First `SECTION_HEADER_PATTERNS` regex (`re.I`, anchored both ends):
one of the section words, optionally followed by a single `s`. -/
def matchSectionWord (cs : List Char) : Bool :=
  let low := cs.map Char.toLower
  sectionWordAlternatives.any (fun w => low = w || low = w ++ ['s'])

/-- Second `SECTION_HEADER_PATTERNS` regex `^\d+\.?\s+[A-Z]`
(case-sensitive). -/
def matchNumberedHeading (cs : List Char) : Bool :=
  let ds := cs.takeWhile isDigitChar
  let rest := cs.dropWhile isDigitChar
  if ds.length = 0 then false
  else
    let rest := dropOpt '.' rest
    let ws := rest.takeWhile isPyWs
    let rest := rest.dropWhile isPyWs
    1 ≤ ws.length &&
      (match rest with
       | c :: _ => 'A' ≤ c && c ≤ 'Z'
       | [] => false)

/-- A Roman-numeral character for the third `SECTION_HEADER_PATTERNS`
regex. -/
def isRomanChar (c : Char) : Bool :=
  c = 'I' || c = 'V' || c = 'X' || c = 'L' || c = 'C' || c = 'D' || c = 'M'

/-- Third `SECTION_HEADER_PATTERNS` regex `^[IVXLCDM]+\.?\s+[A-Z]`
(case-sensitive). -/
def matchRomanHeading (cs : List Char) : Bool :=
  let rs := cs.takeWhile isRomanChar
  let rest := cs.dropWhile isRomanChar
  if rs.length = 0 then false
  else
    let rest := dropOpt '.' rest
    let ws := rest.takeWhile isPyWs
    let rest := rest.dropWhile isPyWs
    1 ≤ ws.length &&
      (match rest with
       | c :: _ => 'A' ≤ c && c ≤ 'Z'
       | [] => false)

/-- `classifier.is_section_header`. -/
def is_section_header (text : List Char) : Bool :=
  let t := pyStrip text
  if 100 < t.length then false
  else matchSectionWord t || matchNumberedHeading t || matchRomanHeading t

/-- The superscript-digit class of the first `FOOTNOTE_MARKER_PATTERNS`
regex. -/
def isSuperscriptDigit (c : Char) : Bool :=
  c = '¹' || c = '²' || c = '³' || c = '⁴' || c = '⁵' ||
  c = '⁶' || c = '⁷' || c = '⁸' || c = '⁹' || c = '⁰'

/-- Regex `^[¹²³⁴⁵⁶⁷⁸⁹⁰]+\s`. -/
def matchSuperscriptMarker (cs : List Char) : Bool :=
  let ss := cs.takeWhile isSuperscriptDigit
  let rest := cs.dropWhile isSuperscriptDigit
  1 ≤ ss.length &&
    (match rest with
     | c :: _ => isPyWs c
     | [] => false)

/-- Regex `^\[\d{1,2}\]\s`. -/
def matchBracketMarker (cs : List Char) : Bool :=
  match cs with
  | '[' :: rest =>
    let ds := rest.takeWhile isDigitChar
    let rest := rest.dropWhile isDigitChar
    (1 ≤ ds.length && ds.length ≤ 2) &&
      (match rest with
       | ']' :: c :: _ => isPyWs c
       | _ => false)
  | _ => false

/-- Regex `^[†‡§\*]\s`. -/
def matchDaggerMarker (cs : List Char) : Bool :=
  match cs with
  | c :: c2 :: _ => (c = '†' || c = '‡' || c = '§' || c = '*') && isPyWs c2
  | _ => false

/-- `classifier.is_footnote_marker`. -/
def is_footnote_marker (text : List Char) : Bool :=
  let t := pyStrip text
  matchSuperscriptMarker t || matchBracketMarker t || matchDaggerMarker t

/-- Python `str.isdigit()` on the character sets this code can see:
ASCII digits plus the superscript digits the classifier itself handles. -/
def pyIsDigit (c : Char) : Bool :=
  isDigitChar c || isSuperscriptDigit c

/-- `classifier.RUNNING_HEADER_MAX_LENGTH`. -/
def RUNNING_HEADER_MAX_LENGTH : Nat := 80

/-- `classifier.get_block_position`: normalised `(y_start, y_end,
x_center, width_ratio)`, or all-`none` when the bbox or positive page
dimensions are missing. -/
def get_block_position (bbox : Option (ℚ × ℚ × ℚ × ℚ))
    (page_height page_width : ℚ) :
    Option ℚ × Option ℚ × Option ℚ × Option ℚ :=
  match bbox with
  | none => (none, none, none, none)
  | some (x, y, w, h) =>
    if page_height ≤ 0 || page_width ≤ 0 then (none, none, none, none)
    else
      (some (y / page_height), some ((y + h) / page_height),
       some ((x + w / 2) / page_width), some (w / page_width))

/-- `classifier.is_short_centered_text`. -/
def is_short_centered_text (text : List Char)
    (x_center width_ratio : Option ℚ) (th : PositionThresholds) : Bool :=
  if RUNNING_HEADER_MAX_LENGTH < (pyStrip text).length then false
  else
    match x_center, width_ratio with
    | some xc, some wr =>
      decide (|xc - 1 / 2| < th.center_tolerance) && decide (wr < 1 / 2)
    | _, _ => false

/-- `classifier.classify_block`: content patterns first, then position
rules, then the centered-short-text rule, defaulting to `paragraph`. -/
def classify_block (text : List Char) (bbox : Option (ℚ × ℚ × ℚ × ℚ))
    (page_height page_width : ℚ) (th : PositionThresholds) : BlockType :=
  let trimmed := pyStrip text
  if trimmed.isEmpty then BlockType.other
  else
    let pos := get_block_position bbox page_height page_width
    let y_start := pos.1
    let y_end := pos.2.1
    let x_center := pos.2.2.1
    let width_ratio := pos.2.2.2
    if is_page_number trimmed then BlockType.page_number
    else if is_caption trimmed then BlockType.caption
    else if is_section_header trimmed then BlockType.section_header
    else if is_footnote_marker trimmed then BlockType.footnote
    else
      let posType : Option BlockType :=
        match y_start, y_end with
        | some ys, some ye =>
          if decide (ys < th.header_zone) &&
              decide (trimmed.length < RUNNING_HEADER_MAX_LENGTH) then
            some BlockType.header
          else if decide (th.footer_zone < ye) && decide (trimmed.length < 30) &&
              is_page_number trimmed then
            some BlockType.page_number
          else if decide (th.footer_zone < ye) &&
              decide (trimmed.length < RUNNING_HEADER_MAX_LENGTH) then
            some BlockType.header
          else if decide (th.footnote_zone < ys) && decide (ye < th.footer_zone) &&
              (is_footnote_marker trimmed || pyIsDigit (trimmed.headD ' ')) then
            some BlockType.footnote
          else none
        | _, _ => none
      match posType with
      | some bt => bt
      | none =>
        if is_short_centered_text trimmed x_center width_ratio th &&
            decide (trimmed.length < 60) then
          BlockType.section_header
        else BlockType.paragraph

/-- `classifier.is_core_content`: the filter set
{title, section_header, paragraph, list}. -/
def is_core_content (block_type : BlockType) : Bool :=
  block_type = BlockType.title || block_type = BlockType.section_header ||
  block_type = BlockType.paragraph || block_type = BlockType.list

/-- C9 counterexample: a block whose bbox gives normalised
`y_start = y / page_height = 79/1000 = 0.079` sits inside the header zone
(`y_start < 0.08`), so `classify_block` does return `header` for short
text matching no content pattern — contradicting the claim that 0.079 is
below the header zone. -/
theorem C9_position_header_counterexample :
    classify_block (String.toList "Some header text") (some (0, 79, 100, 10))
        1000 1000 DEFAULT_THRESHOLDS = BlockType.header ∧
    (79 : ℚ) / 1000 = 0.079 := by
  constructor
  · norm_num [classify_block, get_block_position, DEFAULT_THRESHOLDS,
      RUNNING_HEADER_MAX_LENGTH]
    decide
  · norm_num

/-- C9 amended: at normalised `y_start = 0.079` a block is inside the
header zone (`y_start < 0.08`), and whenever its trimmed text is
non-empty, shorter than 80 characters and matches no content pattern,
`classify_block` classifies it as `header` by the position rules. -/
theorem C9_position_header_zone (text : List Char) (x y w h ph pw : ℚ)
    (hph : 0 < ph) (hpw : 0 < pw) (hy : y / ph = 79 / 1000)
    (hne : pyStrip text ≠ [])
    (hlen : (pyStrip text).length < 80)
    (p1 : is_page_number (pyStrip text) = false)
    (p2 : is_caption (pyStrip text) = false)
    (p3 : is_section_header (pyStrip text) = false)
    (p4 : is_footnote_marker (pyStrip text) = false) :
    classify_block text (some (x, y, w, h)) ph pw DEFAULT_THRESHOLDS = BlockType.header := by
  have hph' : decide (ph ≤ 0) = false := decide_eq_false (not_le.mpr hph)
  have hpw' : decide (pw ≤ 0) = false := decide_eq_false (not_le.mpr hpw)
  have hzone : decide (y / ph < DEFAULT_THRESHOLDS.header_zone) = true := by
    rw [decide_eq_true_eq, hy]
    norm_num [DEFAULT_THRESHOLDS]
  have hlen' : decide ((pyStrip text).length < RUNNING_HEADER_MAX_LENGTH) = true := by
    rw [decide_eq_true_eq]
    simpa [RUNNING_HEADER_MAX_LENGTH] using hlen
  simp only [classify_block, get_block_position, hph', hpw', Bool.or_self,
    Bool.false_eq_true, if_false, List.isEmpty_iff, hne, p1, p2, p3, p4,
    hzone, hlen', Bool.and_self, if_true]

/-- C9 witness: the amended header-zone rule applied to a concrete
running-head block at `y_start = 79/1000`. -/
theorem C9_position_header_zone_witness :
    classify_block (String.toList "Running head") (some (5, 79, 200, 10))
        1000 800 DEFAULT_THRESHOLDS = BlockType.header :=
  C9_position_header_zone (String.toList "Running head") 5 79 200 10 1000 800
    (by norm_num) (by norm_num) rfl (by decide) (by decide)
    (by decide) (by decide) (by decide) (by decide)

/-- A classified block of the result schema (`models.PageBlock`; the
unused `latex` / `cells` fields are omitted). -/
structure PageBlock where
  type : BlockType
  text : List Char
  confidence : Option ℚ
  bbox : Option (ℚ × ℚ × ℚ × ℚ)
deriving DecidableEq

/-- One result page (`models.OcrPage`). -/
structure OcrPage where
  page : Nat
  blocks : List PageBlock
  text : List Char
  raw_text : List Char
  confidence : Option ℚ
deriving DecidableEq

/-- Result metrics (`models.OcrMetrics`); all optional fields keep their
pydantic `None` defaults as `Option`. -/
structure OcrMetrics where
  total_pages : Nat
  method : String
  char_count : Nat
  avg_conf : Option ℚ
  runtime_ms : Int
  dpi_initial : Option Nat
  dpi_rerun : Option Nat
  bad_pages : Option (List Nat)
  fallback_pages : Option (List Nat)
deriving DecidableEq

/-- A versioned result (`models.OcrVersion`); the wall-clock `created_at`
field is omitted, and the legacy `model_name` / `model_version` fields
are kept. -/
structure OcrVersion where
  engine : String
  engine_version : String
  pipeline_version : String
  pages : List OcrPage
  doc_text : List Char
  metrics : OcrMetrics
  warnings : List String
  model_name : String
  model_version : String
deriving DecidableEq

/-- `normalize.normalize_paddle_output`: classify (unless opted out) and
repackage engine blocks into `PageBlock`s. -/
def normalize_paddle_output (blocks : List OcrBlock)
    (page_height page_width : ℚ) (classify : Bool) : List PageBlock :=
  blocks.map (fun block =>
    { type :=
        if classify then
          classify_block block.text block.bbox page_height page_width DEFAULT_THRESHOLDS
        else BlockType.paragraph,
      text := block.text,
      confidence := block.confidence,
      bbox := block.bbox })

/-- `normalize.normalize_tesseract_output` (same body as the paddle
variant). -/
def normalize_tesseract_output (blocks : List OcrBlock)
    (page_height page_width : ℚ) (classify : Bool) : List PageBlock :=
  blocks.map (fun block =>
    { type :=
        if classify then
          classify_block block.text block.bbox page_height page_width DEFAULT_THRESHOLDS
        else BlockType.paragraph,
      text := block.text,
      confidence := block.confidence,
      bbox := block.bbox })

/-- The `doc_text_parts` loop of `normalize.build_ocr_version`: for each
page collect the texts of blocks passing the core-content filter (or of
all blocks when `filter_doc_text` is false) and, only when that list is
non-empty, contribute them joined by a newline. -/
def docTextParts (filter_doc_text : Bool) : List OcrPage → List (List Char)
  | [] => []
  | p :: rest =>
    let page_blocks :=
      if filter_doc_text then
        (p.blocks.filter (fun b => is_core_content b.type)).map PageBlock.text
      else p.blocks.map PageBlock.text
    if page_blocks.isEmpty then docTextParts filter_doc_text rest
    else List.intercalate ('\n' :: []) page_blocks :: docTextParts filter_doc_text rest

/-- `normalize.build_ocr_version`: aggregate pages into an `OcrVersion`
with character count, average confidence and the core-content `doc_text`
joined by blank lines. -/
def build_ocr_version (pages : List OcrPage) (engine engine_version pipeline_version
    method : String) (runtime_ms : Int) (dpi_initial : Nat) (dpi_rerun : Option Nat)
    (bad_pages fallback_pages : Option (List Nat)) (warnings : Option (List String))
    (filter_doc_text : Bool) : OcrVersion :=
  let char_count := (pages.map (fun p => (p.blocks.map (fun b => b.text.length)).sum)).sum
  let all_confidences := (pages.map (fun p => p.blocks.filterMap PageBlock.confidence)).flatten
  let avg_conf :=
    if all_confidences.isEmpty then none
    else some (all_confidences.sum / (all_confidences.length : ℚ))
  let doc_text := List.intercalate ('\n' :: '\n' :: []) (docTextParts filter_doc_text pages)
  { engine := engine,
    engine_version := engine_version,
    pipeline_version := pipeline_version,
    pages := pages,
    doc_text := doc_text,
    metrics :=
      { total_pages := pages.length,
        method := method,
        char_count := char_count,
        avg_conf := avg_conf,
        runtime_ms := runtime_ms,
        dpi_initial := some dpi_initial,
        dpi_rerun := dpi_rerun,
        bad_pages := some (bad_pages.getD []),
        fallback_pages := some (fallback_pages.getD []) },
    warnings := warnings.getD [],
    model_name := engine,
    model_version := engine_version }

/-- The page loop of `extractor.extract_text_from_pdf`, indexed from 0:
each page yields one `paragraph` block holding the page's text, omitted
when the text is empty or whitespace-only. -/
def extractPages : Nat → List (List Char) → List OcrPage
  | _, [] => []
  | i, t :: rest =>
    { page := i + 1,
      blocks :=
        if (pyStrip t).isEmpty then []
        else [{ type := BlockType.paragraph, text := t, confidence := none, bbox := none }],
      text := t,
      raw_text := t,
      confidence := none } :: extractPages (i + 1) rest

/-- The `--- Page <n> ---` separator prepended to each page's text in the
direct extractor's `doc_text`. -/
def pageSeparator (n : Nat) : List Char :=
  String.toList "\n\n--- Page " ++ String.toList (Nat.repr n) ++ String.toList " ---\n\n"

/-- The `all_text_parts` accumulation of `extractor.extract_text_from_pdf`. -/
def extractDocText : Nat → List (List Char) → List Char
  | _, [] => []
  | i, t :: rest => pageSeparator (i + 1) ++ t ++ extractDocText (i + 1) rest

/-- `extractor.extract_text_from_pdf` over the list of per-page embedded
texts (the PDF parsing itself is external); `total_chars` sums the raw
page-text lengths as the source does. -/
def extract_text_from_pdf (page_texts : List (List Char))
    (fitz_version : String) (runtime_ms : Int) : OcrVersion :=
  let pages := extractPages 0 page_texts
  { engine := "pymupdf",
    engine_version := fitz_version,
    pipeline_version := "",
    pages := pages,
    doc_text := extractDocText 0 page_texts,
    metrics :=
      { total_pages := pages.length,
        method := "direct",
        char_count := (page_texts.map List.length).sum,
        avg_conf := none,
        runtime_ms := runtime_ms,
        dpi_initial := none,
        dpi_rerun := none,
        bad_pages := none,
        fallback_pages := none },
    warnings := [],
    model_name := "pymupdf",
    model_version := fitz_version }

/-- `router.PageResult`: per-page OCR outcome. -/
structure PageResult where
  page_num : Nat
  blocks : List OcrBlock
  method : String
  dpi_used : Nat
  needed_rerun : Bool
  used_fallback : Bool
deriving DecidableEq

/-- `router.process_document_ocr`.  The renderer and the two engines are
external: `paddle_ocr p d` (resp. `tess_ocr p d`) stands for
`paddle.ocr_image(render_page(pdf, p, dpi=d))` (resp. tesseract), and
`paddle_version` / `tess_version` for the engines' `get_version()`.
Phase 1 marks every page failing `is_page_quality_ok` at `dpi_initial`
as bad; phase 2 retries bad pages at `dpi_rerun`; phase 3 sends
still-bad pages to tesseract unconditionally.  The imperative
placeholder array is modelled by computing each page's final
`PageResult` from the same two quality tests the loops perform;
`bad_page_nums` / `still_bad` are accumulated in page order, exactly as
the loops append them. -/
def process_document_ocr (page_count : Nat)
    (paddle_ocr tess_ocr : Nat → Nat → List OcrBlock)
    (paddle_version tess_version : String)
    (dpi_initial dpi_rerun : Nat) (runtime_ms : Int) : OcrVersion :=
  let okInitial := fun p =>
    is_page_quality_ok (paddle_ocr p dpi_initial) OCR_MIN_CONFIDENCE OCR_MIN_CHARS_PER_PAGE
  let okRerun := fun p =>
    is_page_quality_ok (paddle_ocr p dpi_rerun) OCR_MIN_CONFIDENCE OCR_MIN_CHARS_PER_PAGE
  let bad_page_nums := (List.range page_count).filter (fun p => !(okInitial p))
  let still_bad := bad_page_nums.filter (fun p => !(okRerun p))
  let fallback_page_nums := still_bad
  let page_results := (List.range page_count).map (fun p =>
    if okInitial p then
      PageResult.mk p (paddle_ocr p dpi_initial) "paddle" dpi_initial false false
    else if okRerun p then
      PageResult.mk p (paddle_ocr p dpi_rerun) "paddle" dpi_rerun true false
    else
      PageResult.mk p (tess_ocr p dpi_rerun) "tesseract" dpi_rerun true true)
  let ocr_pages := page_results.map (fun r =>
    let page_blocks :=
      if r.method = "paddle" then normalize_paddle_output r.blocks 0 0 true
      else normalize_tesseract_output r.blocks 0 0 true
    let page_text := List.intercalate ('\n' :: []) (page_blocks.map PageBlock.text)
    let confidences := page_blocks.filterMap PageBlock.confidence
    let page_conf :=
      if confidences.isEmpty then none
      else some (confidences.sum / (confidences.length : ℚ))
    OcrPage.mk (r.page_num + 1) page_blocks page_text page_text page_conf)
  let engineTriple :=
    if fallback_page_nums.isEmpty then ("paddle", paddle_version, "paddle")
    else if fallback_page_nums.length = page_count then
      ("tesseract", tess_version, "tesseract")
    else
      ("hybrid", "paddle" ++ paddle_version ++ "+tess" ++ tess_version, "hybrid")
  build_ocr_version ocr_pages engineTriple.1 engineTriple.2.1 PIPELINE_VERSION
    engineTriple.2.2 runtime_ms dpi_initial
    (if bad_page_nums.isEmpty then none else some dpi_rerun)
    (some bad_page_nums) (some fallback_page_nums) (some []) true

/-- C5: engine/method aggregation of the OCR router — fallback on no page
gives `paddle`/`paddle`, fallback on every page gives
`tesseract`/`tesseract`, a proper mixture gives `hybrid`/`hybrid` with the
combined `paddle<v1>+tess<v2>` version string — and a zero-page PDF yields
an empty pages list, `total_pages = 0`, method `paddle` and empty
`doc_text`. -/
theorem C5_engine_aggregation (n : Nat) (po te : Nat → Nat → List OcrBlock)
    (pv tv : String) (d1 d2 : Nat) (rt : Int) :
    ((process_document_ocr n po te pv tv d1 d2 rt).metrics.fallback_pages = some [] →
      (process_document_ocr n po te pv tv d1 d2 rt).engine = "paddle" ∧
      (process_document_ocr n po te pv tv d1 d2 rt).metrics.method = "paddle") ∧
    (∀ l, (process_document_ocr n po te pv tv d1 d2 rt).metrics.fallback_pages = some l →
      l ≠ [] → l.length = n →
      (process_document_ocr n po te pv tv d1 d2 rt).engine = "tesseract" ∧
      (process_document_ocr n po te pv tv d1 d2 rt).metrics.method = "tesseract") ∧
    (∀ l, (process_document_ocr n po te pv tv d1 d2 rt).metrics.fallback_pages = some l →
      l ≠ [] → l.length ≠ n →
      (process_document_ocr n po te pv tv d1 d2 rt).engine = "hybrid" ∧
      (process_document_ocr n po te pv tv d1 d2 rt).metrics.method = "hybrid" ∧
      (process_document_ocr n po te pv tv d1 d2 rt).engine_version =
        "paddle" ++ pv ++ "+tess" ++ tv) ∧
    (n = 0 →
      (process_document_ocr n po te pv tv d1 d2 rt).pages = [] ∧
      (process_document_ocr n po te pv tv d1 d2 rt).metrics.total_pages = 0 ∧
      (process_document_ocr n po te pv tv d1 d2 rt).metrics.method = "paddle" ∧
      (process_document_ocr n po te pv tv d1 d2 rt).doc_text = []) := by
  refine ⟨?_, ?_, ?_, ?_⟩
  · simp only [process_document_ocr, build_ocr_version]
    intro h
    simp only [Option.getD_some, Option.some.injEq] at h
    simp [h]
  · simp only [process_document_ocr, build_ocr_version]
    intro l h hne hlen
    simp only [Option.getD_some, Option.some.injEq] at h
    subst h
    rw [if_neg (by simpa [List.isEmpty_iff] using hne), if_pos hlen]
    exact ⟨rfl, rfl⟩
  · simp only [process_document_ocr, build_ocr_version]
    intro l h hne hlen
    simp only [Option.getD_some, Option.some.injEq] at h
    subst h
    rw [if_neg (by simpa [List.isEmpty_iff] using hne), if_neg hlen]
    exact ⟨rfl, rfl, rfl⟩
  · rintro rfl
    simp [process_document_ocr, build_ocr_version, docTextParts, List.intercalate]

/-- C5 witness: the zero-page clause evaluated on a concrete empty
document. -/
theorem C5_engine_aggregation_witness :
    (process_document_ocr 0 (fun _ _ => []) (fun _ _ => [])
        "2.7.3" "5.0.0" 200 300 7).pages = [] ∧
    (process_document_ocr 0 (fun _ _ => []) (fun _ _ => [])
        "2.7.3" "5.0.0" 200 300 7).metrics.total_pages = 0 ∧
    (process_document_ocr 0 (fun _ _ => []) (fun _ _ => [])
        "2.7.3" "5.0.0" 200 300 7).metrics.method = "paddle" ∧
    (process_document_ocr 0 (fun _ _ => []) (fun _ _ => [])
        "2.7.3" "5.0.0" 200 300 7).doc_text = [] :=
  (C5_engine_aggregation 0 (fun _ _ => []) (fun _ _ => [])
    "2.7.3" "5.0.0" 200 300 7).2.2.2 rfl

/-- Total block-text length of a result's pages (the quantity the spec
says `metrics.char_count` equals). -/
def blockCharSum (pages : List OcrPage) : Nat :=
  (pages.map (fun p => (p.blocks.map (fun b => b.text.length)).sum)).sum

/-- Auxiliary for C6: under the proviso that no page text is
whitespace-only-but-non-empty, the direct extractor's pages carry exactly
the page-text lengths as block text. -/
theorem blockCharSum_extractPages (i : Nat) (texts : List (List Char)) :
    (∀ t ∈ texts, t ≠ [] → pyStrip t ≠ []) →
    blockCharSum (extractPages i texts) = (texts.map List.length).sum := by
  induction texts generalizing i with
  | nil => intro h; rfl
  | cons t rest ih =>
    intro h
    have hrest : ∀ u ∈ rest, u ≠ [] → pyStrip u ≠ [] :=
      fun u hu => h u (List.mem_cons_of_mem t hu)
    have ihr := ih (i + 1) hrest
    simp only [blockCharSum] at ihr
    by_cases he : (pyStrip t).isEmpty
    · have ht : t = [] := by
        by_contra hne
        exact h t (List.mem_cons_self t rest) hne (List.isEmpty_iff.mp he)
      subst ht
      simp [extractPages, blockCharSum, he, ihr]
    · simp [extractPages, blockCharSum, he, ihr]

/-- C6 counterexample: a one-page document whose embedded text is a
single space — `char_count` counts the raw page text (1 character), but
the whitespace-only page produces no block, so the block-text sum is 0. -/
theorem C6_char_count_counterexample :
    (extract_text_from_pdf [[' ']] "1.23.8" 0).metrics.char_count = 1 ∧
    blockCharSum (extract_text_from_pdf [[' ']] "1.23.8" 0).pages = 0 ∧
    (extract_text_from_pdf [[' ']] "1.23.8" 0).metrics.char_count ≠
      blockCharSum (extract_text_from_pdf [[' ']] "1.23.8" 0).pages := by
  refine ⟨rfl, rfl, by decide⟩

/-- C6 amended: `metrics.char_count` equals the block-text sum for every
result built by `build_ocr_version`; for the direct extractor it equals
the total raw page-text length, which agrees with the block-text sum
provided no page's text is non-empty pure whitespace. -/
theorem C6_char_count :
    (∀ (pages : List OcrPage) (e ev pv m : String) (rt : Int) (d1 : Nat)
        (d2 : Option Nat) (bp fp : Option (List Nat)) (w : Option (List String))
        (fdt : Bool),
      (build_ocr_version pages e ev pv m rt d1 d2 bp fp w fdt).metrics.char_count =
        blockCharSum pages) ∧
    (∀ (texts : List (List Char)) (fv : String) (rt : Int),
      (extract_text_from_pdf texts fv rt).metrics.char_count =
        (texts.map List.length).sum) ∧
    (∀ (texts : List (List Char)) (fv : String) (rt : Int),
      (∀ t ∈ texts, t ≠ [] → pyStrip t ≠ []) →
      (extract_text_from_pdf texts fv rt).metrics.char_count =
        blockCharSum (extract_text_from_pdf texts fv rt).pages) := by
  refine ⟨fun pages e ev pv m rt d1 d2 bp fp w fdt => rfl,
    fun texts fv rt => rfl, fun texts fv rt h => ?_⟩
  simp only [extract_text_from_pdf]
  exact (blockCharSum_extractPages 0 texts h).symm

/-- C6 witness: the amended direct-extractor clause applied to a concrete
one-page document with real text. -/
theorem C6_char_count_witness :
    (extract_text_from_pdf [String.toList "hello"] "1.23.8" 3).metrics.char_count =
      blockCharSum (extract_text_from_pdf [String.toList "hello"] "1.23.8" 3).pages :=
  C6_char_count.2.2 [String.toList "hello"] "1.23.8" 3 (by decide)

/-- The claim's reading of `doc_text`: every page contributes its
core-content text to the `\n\n`-join, including pages where no block
passes the filter (second, spec-side definition for the C8 comparison —
follows the claim's words, not the source). -/
def docTextEveryPageSpec (pages : List OcrPage) : List Char :=
  List.intercalate ('\n' :: '\n' :: [])
    (pages.map (fun p =>
      List.intercalate ('\n' :: [])
        ((p.blocks.filter (fun b => is_core_content b.type)).map PageBlock.text)))

/-- C8 counterexample: with a middle page whose only block is a `header`
(filtered out), the source skips that page entirely (`if page_blocks:`),
while the claim's every-page reading inserts an empty part — the two
joins differ on a concrete three-page input. -/
theorem C8_doc_text_counterexample :
    (build_ocr_version
        [⟨1, [⟨BlockType.paragraph, ['a'], none, none⟩], ['a'], ['a'], none⟩,
         ⟨2, [⟨BlockType.header, ['x'], none, none⟩], ['x'], ['x'], none⟩,
         ⟨3, [⟨BlockType.paragraph, ['b'], none, none⟩], ['b'], ['b'], none⟩]
        "paddle" "2.7.3" "1.0.0" "paddle" 0 200 none none none none true).doc_text =
      String.toList "a\n\nb" ∧
    docTextEveryPageSpec
        [⟨1, [⟨BlockType.paragraph, ['a'], none, none⟩], ['a'], ['a'], none⟩,
         ⟨2, [⟨BlockType.header, ['x'], none, none⟩], ['x'], ['x'], none⟩,
         ⟨3, [⟨BlockType.paragraph, ['b'], none, none⟩], ['b'], ['b'], none⟩] =
      String.toList "a\n\n\n\nb" ∧
    (build_ocr_version
        [⟨1, [⟨BlockType.paragraph, ['a'], none, none⟩], ['a'], ['a'], none⟩,
         ⟨2, [⟨BlockType.header, ['x'], none, none⟩], ['x'], ['x'], none⟩,
         ⟨3, [⟨BlockType.paragraph, ['b'], none, none⟩], ['b'], ['b'], none⟩]
        "paddle" "2.7.3" "1.0.0" "paddle" 0 200 none none none none true).doc_text ≠
      docTextEveryPageSpec
        [⟨1, [⟨BlockType.paragraph, ['a'], none, none⟩], ['a'], ['a'], none⟩,
         ⟨2, [⟨BlockType.header, ['x'], none, none⟩], ['x'], ['x'], none⟩,
         ⟨3, [⟨BlockType.paragraph, ['b'], none, none⟩], ['b'], ['b'], none⟩] := by
  refine ⟨by decide, by decide, by decide⟩

/-- Auxiliary for C8: the source's part-collection loop equals
filter-then-map over the pages having at least one core block. -/
theorem docTextParts_eq_filter_map (pages : List OcrPage) :
    docTextParts true pages =
      (pages.filter (fun p => p.blocks.any (fun b => is_core_content b.type))).map
        (fun p => List.intercalate ('\n' :: [])
          ((p.blocks.filter (fun b => is_core_content b.type)).map PageBlock.text)) := by
  induction pages with
  | nil => rfl
  | cons p rest ih =>
    by_cases h : p.blocks.any (fun b => is_core_content b.type)
    · have hne : (((p.blocks.filter (fun b => is_core_content b.type)).map
          PageBlock.text)).isEmpty = false := by
        obtain ⟨b, hb, hcore⟩ := List.any_eq_true.mp h
        rw [Bool.eq_false_iff]
        intro hX
        have hnil := List.isEmpty_iff.mp hX
        rw [List.map_eq_nil_iff, List.filter_eq_nil_iff] at hnil
        exact hnil b hb (by simp [hcore])
      simp [docTextParts, List.filter_cons, h, hne, ih]
    · have hemp : (((p.blocks.filter (fun b => is_core_content b.type)).map
          PageBlock.text)).isEmpty = true := by
        simp only [List.any_eq_true, not_exists, not_and] at h
        simp only [List.isEmpty_eq_true, List.map_eq_nil_iff, List.filter_eq_nil_iff]
        intro b hb
        simp [h b hb]
      simp [docTextParts, List.filter_cons, h, hemp, ih]

/-- C8 amended: `doc_text` is the `\n\n`-join of per-page core-content
texts over exactly those pages having at least one block passing the
core-content filter {title, section_header, paragraph, list}; pages on
which no block passes are omitted entirely (not joined as empty parts). -/
theorem C8_doc_text (pages : List OcrPage) (e ev pv m : String) (rt : Int)
    (d1 : Nat) (d2 : Option Nat) (bp fp : Option (List Nat))
    (w : Option (List String)) :
    (build_ocr_version pages e ev pv m rt d1 d2 bp fp w true).doc_text =
      List.intercalate ('\n' :: '\n' :: [])
        ((pages.filter (fun p => p.blocks.any (fun b => is_core_content b.type))).map
          (fun p => List.intercalate ('\n' :: [])
            ((p.blocks.filter (fun b => is_core_content b.type)).map PageBlock.text))) ∧
    (∀ bt : BlockType, is_core_content bt = true ↔
      bt = BlockType.title ∨ bt = BlockType.section_header ∨
      bt = BlockType.paragraph ∨ bt = BlockType.list) := by
  constructor
  · simp only [build_ocr_version, docTextParts_eq_filter_map]
  · intro bt
    cases bt <;> simp [is_core_content]

/-- C8 witness: the amended doc_text equation evaluated on the concrete
three-page input of the counterexample shape. -/
theorem C8_doc_text_witness :
    (build_ocr_version
        [⟨1, [⟨BlockType.paragraph, ['a'], none, none⟩], ['a'], ['a'], none⟩,
         ⟨2, [⟨BlockType.header, ['x'], none, none⟩], ['x'], ['x'], none⟩]
        "paddle" "2.7.3" "1.0.0" "paddle" 0 200 none none none none true).doc_text =
      List.intercalate ('\n' :: '\n' :: [])
        (([⟨1, [⟨BlockType.paragraph, ['a'], none, none⟩], ['a'], ['a'], none⟩,
           ⟨2, [⟨BlockType.header, ['x'], none, none⟩], ['x'], ['x'], none⟩].filter
            (fun p : OcrPage => p.blocks.any (fun b => is_core_content b.type))).map
          (fun p => List.intercalate ('\n' :: [])
            ((p.blocks.filter (fun b => is_core_content b.type)).map PageBlock.text))) :=
  (C8_doc_text
    [⟨1, [⟨BlockType.paragraph, ['a'], none, none⟩], ['a'], ['a'], none⟩,
     ⟨2, [⟨BlockType.header, ['x'], none, none⟩], ['x'], ['x'], none⟩]
    "paddle" "2.7.3" "1.0.0" "paddle" 0 200 none none none none).1

/-- Auxiliary for C10: with missing page dimensions the position tuple is
all `None`. -/
theorem get_block_position_zero (bbox : Option (ℚ × ℚ × ℚ × ℚ)) :
    get_block_position bbox 0 0 = (none, none, none, none) := by
  rcases bbox with _ | ⟨x, y, w, h⟩
  · rfl
  · simp [get_block_position]

/-- Auxiliary for C10: with zero page dimensions, classification can only
produce a content-pattern outcome or the `paragraph` default. -/
theorem classify_block_zero_dims (text : List Char) (bbox : Option (ℚ × ℚ × ℚ × ℚ))
    (th : PositionThresholds) :
    classify_block text bbox 0 0 th = BlockType.other ∨
    classify_block text bbox 0 0 th = BlockType.page_number ∨
    classify_block text bbox 0 0 th = BlockType.caption ∨
    classify_block text bbox 0 0 th = BlockType.section_header ∨
    classify_block text bbox 0 0 th = BlockType.footnote ∨
    classify_block text bbox 0 0 th = BlockType.paragraph := by
  simp only [classify_block, get_block_position_zero, is_short_centered_text]
  split_ifs <;> simp

/-- C10: the router normalises without page dimensions, so
`get_block_position` yields all-`None` and every block of every router
result has a type among the content-pattern outcomes
{page_number, caption, section_header, footnote, other, paragraph} —
never `header`. -/
theorem C10_router_never_header :
    (∀ bbox : Option (ℚ × ℚ × ℚ × ℚ),
        get_block_position bbox 0 0 = (none, none, none, none)) ∧
    (∀ (n : Nat) (po te : Nat → Nat → List OcrBlock) (pv tv : String)
        (d1 d2 : Nat) (rt : Int) (p : OcrPage) (b : PageBlock),
      p ∈ (process_document_ocr n po te pv tv d1 d2 rt).pages →
      b ∈ p.blocks →
      (b.type = BlockType.other ∨ b.type = BlockType.page_number ∨
       b.type = BlockType.caption ∨ b.type = BlockType.section_header ∨
       b.type = BlockType.footnote ∨ b.type = BlockType.paragraph) ∧
      b.type ≠ BlockType.header) := by
  refine ⟨get_block_position_zero, ?_⟩
  intro n po te pv tv d1 d2 rt p b hp hb
  simp only [process_document_ocr, build_ocr_version] at hp
  obtain ⟨r, -, rfl⟩ := List.mem_map.mp hp
  rw [show normalize_tesseract_output = normalize_paddle_output from rfl, ite_self] at hb
  simp only [normalize_paddle_output, List.mem_map] at hb
  obtain ⟨blk, -, rfl⟩ := hb
  simp only [if_pos rfl, if_true]
  have h := classify_block_zero_dims blk.text blk.bbox DEFAULT_THRESHOLDS
  constructor
  · simpa using h
  · rcases h with h | h | h | h | h | h <;> simp [h]

/-- C10 witness: the no-`header` property evaluated on a concrete
one-page router run whose single block classifies as `paragraph`. -/
theorem C10_router_never_header_witness :
    ((⟨BlockType.paragraph, List.replicate 60 'a', none, none⟩ : PageBlock).type =
        BlockType.other ∨
     (⟨BlockType.paragraph, List.replicate 60 'a', none, none⟩ : PageBlock).type =
        BlockType.page_number ∨
     (⟨BlockType.paragraph, List.replicate 60 'a', none, none⟩ : PageBlock).type =
        BlockType.caption ∨
     (⟨BlockType.paragraph, List.replicate 60 'a', none, none⟩ : PageBlock).type =
        BlockType.section_header ∨
     (⟨BlockType.paragraph, List.replicate 60 'a', none, none⟩ : PageBlock).type =
        BlockType.footnote ∨
     (⟨BlockType.paragraph, List.replicate 60 'a', none, none⟩ : PageBlock).type =
        BlockType.paragraph) ∧
    (⟨BlockType.paragraph, List.replicate 60 'a', none, none⟩ : PageBlock).type ≠
      BlockType.header :=
  C10_router_never_header.2 1
    (fun _ _ => [⟨List.replicate 60 'a', none, none⟩]) (fun _ _ => [])
    "2.7.3" "5.0.0" 200 300 0
    ⟨1, [⟨BlockType.paragraph, List.replicate 60 'a', none, none⟩],
      List.replicate 60 'a', List.replicate 60 'a', none⟩
    ⟨BlockType.paragraph, List.replicate 60 'a', none, none⟩
    (by decide) (by decide)

/-- A row of the `document_jobs` table (`models.DocumentJob`); timestamps
are abstract ticks (`Nat`), the overloaded `result` blob is not involved
in the claims and is omitted. -/
structure JobRow where
  id : String
  document_id : String
  job_type : String
  status : String
  priority : Int
  attempts : Nat
  max_attempts : Nat
  locked_at : Option Nat
  locked_by : Option String
  last_error : Option (List Char)
  created_at : Nat
  updated_at : Nat
  started_at : Option Nat
  completed_at : Option Nat
deriving DecidableEq

/-- The candidate-selection query of `db.claim_job`: the single oldest
pending job ordered by `priority DESC, created_at ASC` (optionally
filtered by job type; Python's falsy test makes an empty filter list a
no-op), i.e. the head of the stable sort — the first row strictly better
than every earlier one. -/
def selectCandidate (jobs : List JobRow) (job_types : Option (List String)) :
    Option JobRow :=
  let pending := jobs.filter (fun r => decide (r.status = "pending"))
  let pending :=
    match job_types with
    | none => pending
    | some ts =>
      if ts.isEmpty then pending
      else pending.filter (fun r => decide (r.job_type ∈ ts))
  pending.foldl (fun best r =>
    match best with
    | none => some r
    | some b =>
      if b.priority < r.priority ∨ (r.priority = b.priority ∧ r.created_at < b.created_at)
      then some r else some b) none

/-- The atomic conditional update of `db.claim_job`: set the claiming
fields on rows with `id = jid AND status = 'pending'`; returns the list
of updated rows (Supabase's response data) together with the new table
state. -/
def casClaim (jobs : List JobRow) (jid : String) (wid : String) (now : Nat) :
    List JobRow × List JobRow :=
  let cond := fun r : JobRow => decide (r.id = jid) && decide (r.status = "pending")
  let upd := fun r : JobRow =>
    { r with status := "processing", locked_at := some now, locked_by := some wid,
             started_at := some now, updated_at := now }
  ((jobs.filter cond).map upd, jobs.map (fun r => if cond r then upd r else r))

/-- `db.claim_job`: select a candidate, then attempt the atomic claim;
zero updated rows means another worker won and the result is `none`.
(The subsequent non-atomic document-status update touches the separate
`documents` table and does not affect the job race.) -/
def claim_job (jobs : List JobRow) (job_types : Option (List String))
    (wid : String) (now : Nat) : Option JobRow × List JobRow :=
  match selectCandidate jobs job_types with
  | none => (none, jobs)
  | some cand =>
    let res := casClaim jobs cand.id wid now
    match res.1 with
    | [] => (none, res.2)
    | r :: _ => (some r, res.2)

/-- The observable phases of one worker running `claim_job` against the
shared store: before the select, after the select, and after the
conditional update (holding `claim_job`'s return value). -/
inductive WorkerPhase where
  | ready : WorkerPhase
  | picked : Option JobRow → WorkerPhase
  | done : Option JobRow → WorkerPhase
deriving DecidableEq

/-- One store round-trip of `claim_job` for a worker in the given phase:
`ready → picked` performs the candidate select, `picked → done` performs
the atomic conditional update (or returns `none` without touching the
store when no candidate was found). -/
def workerStep (wid : String) (now : Nat) (ph : WorkerPhase) (jobs : List JobRow) :
    WorkerPhase × List JobRow :=
  match ph with
  | WorkerPhase.ready => (WorkerPhase.picked (selectCandidate jobs none), jobs)
  | WorkerPhase.picked none => (WorkerPhase.done none, jobs)
  | WorkerPhase.picked (some cand) =>
    let res := casClaim jobs cand.id wid now
    (match res.1 with
     | [] => WorkerPhase.done none
     | r :: _ => WorkerPhase.done (some r), res.2)
  | WorkerPhase.done r => (WorkerPhase.done r, jobs)

/-- One scheduler move of the two-worker race: `true` advances worker A,
`false` advances worker B, against the shared jobs table. -/
def raceStep (widA widB : String) (now : Nat)
    (st : WorkerPhase × WorkerPhase × List JobRow) (mv : Bool) :
    WorkerPhase × WorkerPhase × List JobRow :=
  if mv then
    let r := workerStep widA now st.1 st.2.2
    (r.1, st.2.1, r.2)
  else
    let r := workerStep widB now st.2.1 st.2.2
    (st.1, r.1, r.2)

/-- Run the two-worker race from idle workers under an arbitrary
interleaving of their store round-trips. -/
def runRace (widA widB : String) (now : Nat) (jobs : List JobRow)
    (sched : List Bool) : WorkerPhase × WorkerPhase × List JobRow :=
  sched.foldl (raceStep widA widB now) (WorkerPhase.ready, WorkerPhase.ready, jobs)

/-- C3: two workers racing `claim_job` on a single pending job — the
worker steps compose to exactly `claim_job`, and under every interleaving
of the two workers' store round-trips (each worker makes its two steps,
in program order) exactly one worker ends holding the job, now in status
`processing` and locked by that worker, while the other receives `none`. -/
theorem C3_claim_race :
    (∀ (jobs : List JobRow) (wid : String) (now : Nat),
      workerStep wid now (workerStep wid now WorkerPhase.ready jobs).1
          (workerStep wid now WorkerPhase.ready jobs).2 =
        (WorkerPhase.done (claim_job jobs none wid now).1,
         (claim_job jobs none wid now).2)) ∧
    (∀ (j : JobRow) (widA widB : String) (now : Nat),
      j.status = "pending" →
      ∀ sched : List Bool, sched.length = 4 → sched.count true = 2 →
      (∃ r, (runRace widA widB now [j] sched).1 = WorkerPhase.done (some r) ∧
          (runRace widA widB now [j] sched).2.1 = WorkerPhase.done none ∧
          r.status = "processing" ∧ r.locked_by = some widA ∧ r.locked_at = some now) ∨
      (∃ r, (runRace widA widB now [j] sched).2.1 = WorkerPhase.done (some r) ∧
          (runRace widA widB now [j] sched).1 = WorkerPhase.done none ∧
          r.status = "processing" ∧ r.locked_by = some widB ∧ r.locked_at = some now)) := by
  constructor
  · intro jobs wid now
    simp only [workerStep, claim_job]
    rcases hsel : selectCandidate jobs none with _ | cand
    · rfl
    · simp only []
      rcases hrows : (casClaim jobs cand.id wid now).1 with _ | ⟨r, rest⟩ <;> simp [hrows]
  · intro j widA widB now hp sched hlen hcount
    rcases sched with _ | ⟨a, _ | ⟨b, _ | ⟨c, _ | ⟨d, rest⟩⟩⟩⟩ <;> simp_all
    obtain rfl : rest = [] := by simpa using hlen
    cases a <;> cases b <;> cases c <;> cases d <;>
      simp_all [runRace, raceStep, workerStep, selectCandidate, casClaim]

/-- C3 witness: the race property on a concrete pending job under the
alternating schedule where both workers select before either claims. -/
theorem C3_claim_race_witness :
    (∃ r, (runRace "worker-1" "worker-2" 5
          [⟨"job1", "doc1", "ocr", "pending", 0, 0, 3, none, none, none, 10, 10, none, none⟩]
          [true, false, true, false]).1 = WorkerPhase.done (some r) ∧
        (runRace "worker-1" "worker-2" 5
          [⟨"job1", "doc1", "ocr", "pending", 0, 0, 3, none, none, none, 10, 10, none, none⟩]
          [true, false, true, false]).2.1 = WorkerPhase.done none ∧
        r.status = "processing" ∧ r.locked_by = some "worker-1" ∧ r.locked_at = some 5) ∨
    (∃ r, (runRace "worker-1" "worker-2" 5
          [⟨"job1", "doc1", "ocr", "pending", 0, 0, 3, none, none, none, 10, 10, none, none⟩]
          [true, false, true, false]).2.1 = WorkerPhase.done (some r) ∧
        (runRace "worker-1" "worker-2" 5
          [⟨"job1", "doc1", "ocr", "pending", 0, 0, 3, none, none, none, 10, 10, none, none⟩]
          [true, false, true, false]).1 = WorkerPhase.done none ∧
        r.status = "processing" ∧ r.locked_by = some "worker-2" ∧ r.locked_at = some 5) :=
  C3_claim_race.2
    ⟨"job1", "doc1", "ocr", "pending", 0, 0, 3, none, none, none, 10, 10, none, none⟩
    "worker-1" "worker-2" 5 rfl [true, false, true, false] (by decide) (by decide)

/-- A row of the `documents` table, restricted to the fields `fail_job`
reads or writes. -/
structure DocRow where
  id : String
  status : String
  error_message : Option (List Char)
  page_count : Nat
  updated_at : Nat
deriving DecidableEq

/-- The document error message
`f"Processing failed after {new_attempts} attempts: {error_msg}"`. -/
def failMessage (new_attempts : Nat) (error_msg : List Char) : List Char :=
  String.toList "Processing failed after " ++ String.toList (Nat.repr new_attempts) ++
    String.toList " attempts: " ++ error_msg

/-- `db.fail_job` acting on the job row and its document row: increment
attempts, clear the lock, record the error; on final failure
(`new_attempts >= max_attempts`) the job becomes `failed` and the
document `error`, otherwise the job returns to `pending` and the
document is untouched. -/
def fail_job (job : JobRow) (doc : DocRow) (error_msg : List Char) (now : Nat) :
    JobRow × DocRow :=
  let new_attempts := job.attempts + 1
  let is_final_failure : Bool := decide (job.max_attempts ≤ new_attempts)
  let job' := { job with
    status := if is_final_failure then "failed" else "pending",
    attempts := new_attempts,
    last_error := some error_msg,
    updated_at := now,
    locked_at := none,
    locked_by := none }
  let doc' :=
    if is_final_failure then
      { doc with
        status := "error",
        error_message := some (failMessage new_attempts error_msg),
        updated_at := now }
    else doc
  (job', doc')

/-- C4: `fail_job` with `new_attempts = attempts + 1` — when
`new_attempts ≥ max_attempts` the job is `failed` with the incremented
attempts, `last_error = msg` and both lock fields cleared, and the
document becomes `error` with the cumulative message; otherwise the job
returns to `pending` (same bookkeeping) and the document is unchanged. -/
theorem C4_fail_job (job : JobRow) (doc : DocRow) (msg : List Char) (now : Nat) :
    (job.max_attempts ≤ job.attempts + 1 →
      (fail_job job doc msg now).1.status = "failed" ∧
      (fail_job job doc msg now).1.attempts = job.attempts + 1 ∧
      (fail_job job doc msg now).1.last_error = some msg ∧
      (fail_job job doc msg now).1.locked_at = none ∧
      (fail_job job doc msg now).1.locked_by = none ∧
      (fail_job job doc msg now).2.status = "error" ∧
      (fail_job job doc msg now).2.error_message =
        some (String.toList "Processing failed after " ++
          String.toList (Nat.repr (job.attempts + 1)) ++
          String.toList " attempts: " ++ msg)) ∧
    (job.attempts + 1 < job.max_attempts →
      (fail_job job doc msg now).1.status = "pending" ∧
      (fail_job job doc msg now).1.attempts = job.attempts + 1 ∧
      (fail_job job doc msg now).1.last_error = some msg ∧
      (fail_job job doc msg now).1.locked_at = none ∧
      (fail_job job doc msg now).1.locked_by = none ∧
      (fail_job job doc msg now).2 = doc) := by
  constructor
  · intro h
    simp [fail_job, failMessage, h]
  · intro h
    simp [fail_job, not_le.mpr h]

/-- C4 witness: the final-failure branch on a concrete job at its last
allowed attempt. -/
theorem C4_fail_job_witness :
    (fail_job
        ⟨"job1", "doc1", "ocr", "processing", 0, 2, 3, some 4, some "worker-1", none,
          10, 10, some 4, none⟩
        ⟨"doc1", "processing", none, 0, 10⟩ (String.toList "boom") 5).1.status = "failed" ∧
    (fail_job
        ⟨"job1", "doc1", "ocr", "processing", 0, 2, 3, some 4, some "worker-1", none,
          10, 10, some 4, none⟩
        ⟨"doc1", "processing", none, 0, 10⟩ (String.toList "boom") 5).1.attempts = 2 + 1 ∧
    (fail_job
        ⟨"job1", "doc1", "ocr", "processing", 0, 2, 3, some 4, some "worker-1", none,
          10, 10, some 4, none⟩
        ⟨"doc1", "processing", none, 0, 10⟩ (String.toList "boom") 5).1.last_error =
      some (String.toList "boom") ∧
    (fail_job
        ⟨"job1", "doc1", "ocr", "processing", 0, 2, 3, some 4, some "worker-1", none,
          10, 10, some 4, none⟩
        ⟨"doc1", "processing", none, 0, 10⟩ (String.toList "boom") 5).1.locked_at = none ∧
    (fail_job
        ⟨"job1", "doc1", "ocr", "processing", 0, 2, 3, some 4, some "worker-1", none,
          10, 10, some 4, none⟩
        ⟨"doc1", "processing", none, 0, 10⟩ (String.toList "boom") 5).1.locked_by = none ∧
    (fail_job
        ⟨"job1", "doc1", "ocr", "processing", 0, 2, 3, some 4, some "worker-1", none,
          10, 10, some 4, none⟩
        ⟨"doc1", "processing", none, 0, 10⟩ (String.toList "boom") 5).2.status = "error" ∧
    (fail_job
        ⟨"job1", "doc1", "ocr", "processing", 0, 2, 3, some 4, some "worker-1", none,
          10, 10, some 4, none⟩
        ⟨"doc1", "processing", none, 0, 10⟩ (String.toList "boom") 5).2.error_message =
      some (String.toList "Processing failed after " ++
        String.toList (Nat.repr (2 + 1)) ++ String.toList " attempts: " ++
        String.toList "boom") :=
  (C4_fail_job
    ⟨"job1", "doc1", "ocr", "processing", 0, 2, 3, some 4, some "worker-1", none,
      10, 10, some 4, none⟩
    ⟨"doc1", "processing", none, 0, 10⟩ (String.toList "boom") 5).1 (by decide)

end FlashRead
